import Mathlib

/-!
Verification of the TriviaVerse question-generation core (src/TriviaVerse.py).

The Python program is embedded shallowly.  Network calls (wikipedia.search,
wikipedia.summary, wikipedia.random) and the random source (random.choice,
random.sample, random.shuffle) are modelled as an explicit environment `Env`
of oracles: each oracle field gives the response of the corresponding call
site, and the integer "pick" fields drive the pseudo-random selections, so
every behaviour reachable for some network response and some random draw is
reachable for some `Env`.  Exceptions raised by the Python libraries are
modelled by the `PyExn` type threaded through `Except`.
-/

/-- Exceptions that the wikipedia library and the standard library can raise
at the call sites used by src/TriviaVerse.py.  All constructors model
subclasses of Python's `Exception` (so all are caught by `except Exception`).
`disambiguation` carries `e.options`, the alternative titles reported by a
`DisambiguationError`. -/
inductive PyExn where
  | disambiguation (options : List String)
  | pageError
  | httpError
  | valueError
  | otherError
deriving DecidableEq, Repr

/-- The environment of oracles for one call of the question-generation chain.
Each field models the response of one network call site or the outcome of one
pseudo-random draw in src/TriviaVerse.py. -/
structure Env where
  /-- Response of `wikipedia.search(query, results=n)` (lines 15 and 74). -/
  search : String → Nat → Except PyExn (List String)
  /-- Response of `wikipedia.summary(title, sentences=n)` (lines 28, 35). -/
  summaryOf : String → Nat → Except PyExn String
  /-- Response of `wikipedia.random(pages=5)` at line 81. -/
  randomPages5 : Except PyExn (List String)
  /-- Response of `wikipedia.random(pages=8)` at line 85 (fallback branch). -/
  randomPages8 : Except PyExn (List String)
  /-- Response of `wikipedia.random(pages=5)` at line 92 (top-up branch). -/
  randomTopup : Except PyExn (List String)
  /-- Index drawn by `random.choice(valid_titles)` at line 27. -/
  choicePick : Nat
  /-- Index stream for `random.sample(e.options, ...)` at line 33. -/
  disambPicks : List Nat
  /-- Index stream for `random.sample(wikipedia.random(pages=5), ...)` line 92. -/
  topupPicks : List Nat
  /-- Index stream for `random.sample(wrong_answers, ...)` at line 94. -/
  samplePicks3 : List Nat
  /-- Index stream for `random.shuffle(options)` at line 97. -/
  shufflePicks : List Nat

/-- The dictionary returned by `generate_mcq` (lines 99-103). -/
structure Question where
  question : String
  options : List String
  answer : String
deriving DecidableEq, Repr

/-- `pat` occurs as a contiguous run at the head of `s`. -/
def headRun : List Char → List Char → Bool
  | [], _ => true
  | _ :: _, [] => false
  | p :: ps, c :: cs => p == c && headRun ps cs

/-- `pat` occurs somewhere in `s` (Python's `pat in s` on strings). -/
def containsSubList (pat : List Char) : List Char → Bool
  | [] => headRun pat []
  | c :: cs => headRun pat (c :: cs) || containsSubList pat cs

/-- Python's `"(disambiguation)" in title`. -/
def hasMarker (title : String) : Bool :=
  containsSubList "(disambiguation)".toList title.toList

/-- The candidate filter of the Article Fetcher, lines 20-23:
keep a title iff it does not contain the disambiguation marker and its
length is strictly greater than 5. -/
def valid_titles (page_titles : List String) : List String :=
  page_titles.filter (fun title => !hasMarker title && decide (5 < title.length))

/-- Model of drawing `k` elements without replacement (distinct positions)
from `pop`, driven by the index stream `picks`.  Every outcome of Python's
`random.sample(pop, k)` (for `k` at most the population size) is
`sampleAux k pop picks` for some `picks`. -/
def sampleAux {α : Type} : Nat → List α → List Nat → List α
  | 0, _, _ => []
  | k + 1, pop, picks =>
    if h : pop.length = 0 then []
    else
      pop.get ⟨picks.headD 0 % pop.length,
        Nat.mod_lt _ (Nat.pos_of_ne_zero h)⟩ ::
        sampleAux k (pop.eraseIdx (picks.headD 0 % pop.length)) picks.tail

/-- Python's `random.sample(pop, k)`: raises `ValueError` when `k` exceeds
the population size, otherwise draws `k` elements without replacement. -/
def pySample {α : Type} (pop : List α) (k : Nat) (picks : List Nat) :
    Except PyExn (List α) :=
  if pop.length < k then .error PyExn.valueError
  else .ok (sampleAux k pop picks)

/-- Python's `random.shuffle`: an arbitrary permutation of the list, driven
by the index stream `picks`. -/
def pyShuffle {α : Type} (l : List α) (picks : List Nat) : List α :=
  sampleAux l.length l picks

/-- Line 27: `title = random.choice(valid_titles)`.  The uniform choice is
driven by `env.choicePick`; it is only evaluated when the filtered list is
nonempty (Python's `random.choice` would raise on an empty sequence). -/
def chosen_title (env : Env) (page_titles : List String) : String :=
  (valid_titles page_titles).getD
    (env.choicePick % (valid_titles page_titles).length) ""

/-- The body of the `try` block of `get_random_wikipedia_summary`
(lines 14-29): search, emptiness checks, candidate filter, uniform choice,
summary fetch.  An `error` value is an exception escaping the `try` body. -/
def fetchBody (env : Env) (category : String) :
    Except PyExn (Option (String × String)) :=
  match env.search category 50 with
  | .error e => .error e
  | .ok page_titles =>
    if page_titles.isEmpty then .ok none
    else if (valid_titles page_titles).isEmpty then .ok none
    else
      match env.summaryOf (chosen_title env page_titles) 3 with
      | .error e => .error e
      | .ok summary => .ok (some (chosen_title env page_titles, summary))

/-- The `for option in random.sample(...)` loop of the `DisambiguationError`
handler (lines 33-38): try each sampled alternative in turn, returning the
first whose summary fetch succeeds; the bare `except: continue` swallows
every failure. -/
def tryOptions (env : Env) : List String → Option (String × String)
  | [] => none
  | o :: rest =>
    match env.summaryOf o 3 with
    | .ok s => some (o, s)
    | .error _ => tryOptions env rest

/-- The `DisambiguationError` handler (lines 30-39): if `e.options` is empty
return `(None, None)`; otherwise sample `min(len(e.options), 5)` alternative
titles and try each in turn.  An exception raised by `random.sample` itself
would escape the handler (modelled by the `error` branch; it is dead because
the sample size never exceeds the population). -/
def recoverDisambiguation (env : Env) (opts : List String) :
    Except PyExn (Option (String × String)) :=
  if opts.isEmpty then .ok none
  else
    match pySample opts (min opts.length 5) env.disambPicks with
    | .error e => .error e
    | .ok sampled => .ok (tryOptions env sampled)

/-- `get_random_wikipedia_summary` (lines 12-42): the `try` body with its two
handlers.  `except wikipedia.exceptions.DisambiguationError` runs the
recovery loop; `except Exception` (every other modelled exception) reports
the error and returns `(None, None)`. -/
def get_random_wikipedia_summary (env : Env) (category : String) :
    Except PyExn (Option (String × String)) :=
  match fetchBody env category with
  | .ok r => .ok r
  | .error (PyExn.disambiguation opts) => recoverDisambiguation env opts
  | .error _ => .ok none

/-- The prompt template of `generate_mcq` (line 100). -/
def questionText (summary : String) : String :=
  "What Wikipedia article is this summary from?\n\n***" ++ summary ++ "***"

/-- The decoy-pool gathering of `generate_mcq` (lines 71-85).  The `try`
block extends the pool with the topic search results (markers and the
correct answer filtered out) and then with 5 random pages; `except
Exception` extends whatever was already gathered with 8 random pages
instead.  A failure of the fallback `wikipedia.random(pages=8)` call happens
inside the handler and therefore escapes `generate_mcq` (the `error`
branches). -/
def wrong_answers_pool_of (env : Env) (category correct : String) :
    Except PyExn (List String) :=
  match env.search category 10 with
  | .error _ => env.randomPages8
  | .ok search_results =>
    let fromSearch := search_results.filter
      (fun res => res != correct && !hasMarker res)
    match env.randomPages5 with
    | .ok rands => .ok (fromSearch ++ rands)
    | .error _ =>
      match env.randomPages8 with
      | .ok r8 => .ok (fromSearch ++ r8)
      | .error e => .error e

/-- Line 88: `list(set([ans for ans in wrong_answers_pool if ans !=
correct_answer]))`.  Python's set iteration order is unspecified; it is
modelled canonically by `List.dedup` (the claims settled below only depend
on membership, length and distinctness, which are order-independent). -/
def wrong_answers_of (pool : List String) (correct : String) : List String :=
  (pool.filter (fun ans => ans != correct)).dedup

/-- Lines 90-92: when fewer than 3 deduplicated decoys remain, extend them
with `random.sample(wikipedia.random(pages=5), 3 - len(wrong_answers))`.
This single draw is NOT re-deduplicated against the pool or the correct
answer.  Both a failing `wikipedia.random` call and a too-small sample
population raise outside any `try`, escaping `generate_mcq`. -/
def topped_wrong_answers (env : Env) (wa0 : List String) :
    Except PyExn (List String) :=
  if wa0.length < 3 then
    match env.randomTopup with
    | .error e => .error e
    | .ok pages =>
      match pySample pages (3 - wa0.length) env.topupPicks with
      | .error e => .error e
      | .ok extra => .ok (wa0 ++ extra)
  else .ok wa0

/-- Lines 70-103 of `generate_mcq` after a successful fetch: gather the
decoy pool, deduplicate, top up, draw `min(3, len(wrong_answers))` decoys,
append the correct answer and shuffle. -/
def buildQuestion (env : Env) (category correct summary : String) :
    Except PyExn Question :=
  match wrong_answers_pool_of env category correct with
  | .error e => .error e
  | .ok pool =>
    match topped_wrong_answers env (wrong_answers_of pool correct) with
    | .error e => .error e
    | .ok wa1 =>
      match pySample wa1 (min 3 wa1.length) env.samplePicks3 with
      | .error e => .error e
      | .ok wrong_answers =>
        .ok { question := questionText summary,
              options := pyShuffle (wrong_answers ++ [correct]) env.shufflePicks,
              answer := correct }

/-- `generate_mcq` (lines 63-103): fetch a (title, summary) pair; if the
summary is missing or empty (`if not summary`), return `None`; otherwise
build the multiple-choice question around `correct_answer = title`. -/
def generate_mcq (env : Env) (category : String) :
    Except PyExn (Option Question) :=
  match get_random_wikipedia_summary env category with
  | .error e => .error e
  | .ok none => .ok none
  | .ok (some (title, summary)) =>
    if summary = "" then .ok none
    else
      match buildQuestion env category title summary with
      | .error e => .error e
      | .ok q => .ok (some q)

/-- Outcome of the round controller's question-acceptance loop
(lines 250-262).  `accepted` stores the question into the session;
`unfillable` is the `attempts == max_attempts` branch (warning, quiz ended,
`st.stop()`); `crashed` models an exception escaping `generate_mcq`, which
nothing in the loop catches. -/
inductive RoundOutcome where
  | accepted (q : Question)
  | unfillable
  | crashed (e : PyExn)
deriving DecidableEq, Repr

/-- The `while attempts < max_attempts` loop of lines 250-262, with
`fuel = max_attempts - attempts`.  Each attempt runs `generate_mcq` in a
fresh environment `envs attempts`; a truthy question whose answer is not
among the already-asked answers is accepted, anything else increments
`attempts`. -/
def questionLoop (category : String) (asked : List Question)
    (envs : Nat → Env) : Nat → Nat → RoundOutcome
  | _, 0 => RoundOutcome.unfillable
  | attempts, fuel + 1 =>
    match generate_mcq (envs attempts) category with
    | .error e => RoundOutcome.crashed e
    | .ok none => questionLoop category asked envs (attempts + 1) fuel
    | .ok (some q) =>
      if q.answer ∈ asked.map Question.answer then
        questionLoop category asked envs (attempts + 1) fuel
      else RoundOutcome.accepted q

/-- The full acceptance loop: `max_attempts = 5`, starting at `attempts = 0`
(lines 250-251). -/
def runQuestionLoop (category : String) (asked : List Question)
    (envs : Nat → Env) : RoundOutcome :=
  questionLoop category asked envs 0 5

/-- One attempt of the loop is rejected: `generate_mcq` returned a falsy
value, or a question whose answer was already asked (line 254's test
fails). -/
def attemptRejected (category : String) (asked : List Question)
    (env : Env) : Prop :=
  generate_mcq env category = .ok none ∨
    ∃ q, generate_mcq env category = .ok (some q) ∧
      q.answer ∈ asked.map Question.answer

/-- The sidebar configuration surface (lines 208-213): category selectbox,
difficulty slider, question count. -/
structure QuizConfig where
  category : String
  difficulty_level : Nat
  num_questions : Nat
deriving DecidableEq, Repr

/-- The fetch step as invoked for a configuration: only `category` is passed
to `get_random_wikipedia_summary`. -/
def quizFetch (cfg : QuizConfig) (env : Env) :
    Except PyExn (Option (String × String)) :=
  get_random_wikipedia_summary env cfg.category

/-- The builder as invoked at line 253: `generate_mcq(category)`; the
difficulty slider value is read at line 211 but never passed. -/
def quizGenerate (cfg : QuizConfig) (env : Env) :
    Except PyExn (Option Question) :=
  generate_mcq env cfg.category

/-- The round controller as invoked for a configuration. -/
def quizRound (cfg : QuizConfig) (asked : List Question)
    (envs : Nat → Env) : RoundOutcome :=
  runQuestionLoop cfg.category asked envs

/-- A default environment: empty search results, constant summaries,
distinct random pages, first-index random draws. -/
def envBase : Env :=
  { search := fun _ _ => .ok []
    summaryOf := fun _ _ => .ok "S."
    randomPages5 := .ok ["R1", "R2", "R3", "R4", "R5"]
    randomPages8 := .ok ["R1", "R2", "R3", "R4", "R5", "R6", "R7", "R8"]
    randomTopup := .ok ["T1", "T2", "T3", "T4", "T5"]
    choicePick := 0
    disambPicks := []
    topupPicks := []
    samplePicks3 := []
    shufflePicks := [] }

/-- A fully successful run: one valid candidate, a plain summary, a rich
decoy pool. -/
def envOk : Env :=
  { envBase with
    search := fun _ n => if n == 50 then .ok ["Abcdefg"] else .ok ["B1", "B2", "B3"]
    summaryOf := fun t _ => if t == "Abcdefg" then .ok "S1." else .ok "S2." }

/-- The search endpoint yields nothing: the fetcher returns NotFound. -/
def envNotFound : Env :=
  { envBase with search := fun _ _ => .ok [] }

/-- The summary endpoint returns an empty string alongside a valid title. -/
def envEmptySummary : Env :=
  { envBase with
    search := fun _ n => if n == 50 then .ok ["Abcdefg"] else .ok ["B1", "B2", "B3"]
    summaryOf := fun _ _ => .ok "" }

/-- The decoy pool collapses to a single title, forcing the top-up draw. -/
def envTopup : Env :=
  { envBase with
    search := fun _ n => if n == 50 then .ok ["Abcdefg"] else .ok []
    summaryOf := fun _ _ => .ok "S1."
    randomPages5 := .ok ["B1", "B1", "B1", "B1", "B1"] }

/-- Two distinct decoys survive deduplication and the top-up draw happens to
return the correct answer itself, which is appended unfiltered. -/
def envC1 : Env :=
  { envBase with
    search := fun _ n => if n == 50 then .ok ["Abcdefg"] else .ok ["B1", "B2"]
    summaryOf := fun _ _ => .ok "S1."
    randomPages5 := .ok ["B1", "B2", "B1", "B2", "B1"]
    randomTopup := .ok ["Abcdefg", "T2", "T3", "T4", "T5"] }

/-- Two distinct decoys survive deduplication and the top-up draw happens to
return a title already in the pool, which is appended unfiltered. -/
def envC3 : Env :=
  { envBase with
    search := fun _ n => if n == 50 then .ok ["Abcdefg"] else .ok ["B1", "B2"]
    summaryOf := fun _ _ => .ok "S1."
    randomPages5 := .ok ["B1", "B2", "B1", "B2", "B1"]
    randomTopup := .ok ["B1", "T2", "T3", "T4", "T5"] }

/-- The chosen candidate resolves to a disambiguation page whose reported
alternatives include a marker-bearing title that fetches successfully. -/
def envC4 : Env :=
  { envBase with
    search := fun _ n => if n == 50 then .ok ["Abcdefg"] else .ok ["B1", "B2", "B3"]
    summaryOf := fun t _ =>
      if t == "Abcdefg" then .error (PyExn.disambiguation ["Foo (disambiguation)"])
      else .ok "S2." }

/-- The chosen candidate resolves to a disambiguation page with six reported
alternatives; the first sampled alternative fails, the second succeeds. -/
def envDisamb : Env :=
  { envBase with
    search := fun _ n => if n == 50 then .ok ["Abcdefg"] else .ok ["B1", "B2", "B3"]
    summaryOf := fun t _ =>
      if t == "Abcdefg" then
        .error (PyExn.disambiguation ["O1", "O2", "O3", "O4", "O5", "O6"])
      else if t == "O1" then .error PyExn.pageError
      else .ok "SO." }

/-- An element read with a default at an in-bounds index is in the list. -/
theorem getD_mem {α : Type} (l : List α) :
    ∀ (i : Nat) (d : α), i < l.length → l.getD i d ∈ l := by
  induction l with
  | nil => intro i d h; simp at h
  | cons a t ih =>
    intro i d h
    cases i with
    | zero => exact List.mem_cons_self a t
    | succ j =>
      have hj : j < t.length := by simpa using Nat.lt_of_succ_lt_succ h
      exact List.mem_cons_of_mem a (ih j d hj)

/-- Moving the element at an in-bounds index to the front is a permutation. -/
theorem get_cons_eraseIdx_perm {α : Type} (l : List α) :
    ∀ (i : Nat) (h : i < l.length),
      List.Perm (l.get ⟨i, h⟩ :: l.eraseIdx i) l := by
  induction l with
  | nil => intro i h; simp at h
  | cons a t ih =>
    intro i h
    cases i with
    | zero => simp [List.eraseIdx]
    | succ j =>
      have hj : j < t.length := by simpa using Nat.lt_of_succ_lt_succ h
      exact (List.Perm.swap a (t.get ⟨j, hj⟩) (t.eraseIdx j)).trans
        ((ih j hj).cons a)

/-- A sample of `k` elements from a population of at least `k` has length
`k`. -/
theorem sampleAux_length {α : Type} :
    ∀ (k : Nat) (pop : List α) (picks : List Nat), k ≤ pop.length →
      (sampleAux k pop picks).length = k := by
  intro k
  induction k with
  | zero => intro pop picks _; rfl
  | succ k ih =>
    intro pop picks hk
    have hne : pop.length ≠ 0 := by omega
    have hlt : picks.headD 0 % pop.length < pop.length :=
      Nat.mod_lt _ (Nat.pos_of_ne_zero hne)
    simp only [sampleAux]
    rw [dif_neg hne]
    simp only [List.length_cons]
    rw [ih _ picks.tail (by rw [List.length_eraseIdx_of_lt hlt]; omega)]

/-- Sampled elements come from the population. -/
theorem sampleAux_mem {α : Type} :
    ∀ (k : Nat) (pop : List α) (picks : List Nat) (x : α),
      x ∈ sampleAux k pop picks → x ∈ pop := by
  intro k
  induction k with
  | zero => intro pop picks x hx; simp [sampleAux] at hx
  | succ k ih =>
    intro pop picks x hx
    by_cases hne : pop.length = 0
    · simp [sampleAux, hne] at hx
    · simp only [sampleAux] at hx
      rw [dif_neg hne] at hx
      rcases List.mem_cons.mp hx with h1 | h2
      · rw [h1]; exact List.get_mem _ _ _
      · exact (List.eraseIdx_sublist _ _).mem (ih _ _ _ h2)

/-- A sample of the whole population is a permutation of it. -/
theorem sampleAux_perm {α : Type} :
    ∀ (k : Nat) (pop : List α) (picks : List Nat), pop.length = k →
      List.Perm (sampleAux k pop picks) pop := by
  intro k
  induction k with
  | zero =>
    intro pop picks h
    rw [List.length_eq_zero.mp h]
    simp [sampleAux]
  | succ k ih =>
    intro pop picks h
    have hne : pop.length ≠ 0 := by omega
    have hlt : picks.headD 0 % pop.length < pop.length :=
      Nat.mod_lt _ (Nat.pos_of_ne_zero hne)
    simp only [sampleAux]
    rw [dif_neg hne]
    refine List.Perm.trans
      (List.Perm.cons _ (ih _ picks.tail ?_)) (get_cons_eraseIdx_perm pop _ hlt)
    rw [List.length_eraseIdx_of_lt hlt]
    omega

/-- Sampling without replacement from a duplicate-free population yields a
duplicate-free result. -/
theorem sampleAux_nodup {α : Type} :
    ∀ (k : Nat) (pop : List α) (picks : List Nat), pop.Nodup →
      (sampleAux k pop picks).Nodup := by
  intro k
  induction k with
  | zero => intro pop picks _; simp [sampleAux]
  | succ k ih =>
    intro pop picks h
    by_cases hne : pop.length = 0
    · simp [sampleAux, hne]
    · have hlt : picks.headD 0 % pop.length < pop.length :=
        Nat.mod_lt _ (Nat.pos_of_ne_zero hne)
      have hcons := ((get_cons_eraseIdx_perm pop _ hlt).symm.nodup h)
      rw [List.nodup_cons] at hcons
      simp only [sampleAux]
      rw [dif_neg hne]
      rw [List.nodup_cons]
      exact ⟨fun hmem => hcons.1 (sampleAux_mem _ _ _ _ hmem), ih _ _ hcons.2⟩

/-- A shuffle is a permutation of its input. -/
theorem pyShuffle_perm {α : Type} (l : List α) (picks : List Nat) :
    List.Perm (pyShuffle l picks) l :=
  sampleAux_perm _ _ _ rfl

/-- A successful `random.sample` call returns exactly `k` elements of the
population. -/
theorem pySample_ok_length {α : Type} (pop : List α) (k : Nat)
    (picks : List Nat) (out : List α) (h : pySample pop k picks = .ok out) :
    out.length = k ∧ ∀ x ∈ out, x ∈ pop := by
  unfold pySample at h
  by_cases hk : pop.length < k
  · rw [if_pos hk] at h; cases h
  · rw [if_neg hk] at h
    cases h
    exact ⟨sampleAux_length _ _ _ (by omega),
      fun x hx => sampleAux_mem _ _ _ _ hx⟩

/-- A successful `random.sample` from a duplicate-free population is
duplicate-free. -/
theorem pySample_ok_nodup {α : Type} (pop : List α) (k : Nat)
    (picks : List Nat) (out : List α) (h : pySample pop k picks = .ok out)
    (hn : pop.Nodup) : out.Nodup := by
  unfold pySample at h
  by_cases hk : pop.length < k
  · rw [if_pos hk] at h; cases h
  · rw [if_neg hk] at h
    cases h
    exact sampleAux_nodup _ _ _ hn

/-- `random.sample(l, min(3, len(l)))` never raises. -/
theorem pySample_min_ok {α : Type} (l : List α) (picks : List Nat) :
    pySample l (min 3 l.length) picks =
      .ok (sampleAux (min 3 l.length) l picks) := by
  unfold pySample
  rw [if_neg (Nat.not_lt.mpr (Nat.min_le_right 3 l.length))]

/-- One attempt of the recovery loop as a specification-side function:
pair a title with its summary when the fetch succeeds. -/
def trySummary (env : Env) (o : String) : Option (String × String) :=
  match env.summaryOf o 3 with
  | .ok s => some (o, s)
  | .error _ => none

/-- The recovery loop returns the first sampled alternative whose summary
fetch succeeds: it is `List.findSome?` of `trySummary` over the sampled
list. -/
theorem tryOptions_eq_findSome (env : Env) :
    ∀ l : List String, tryOptions env l = l.findSome? (trySummary env) := by
  intro l
  induction l with
  | nil => rfl
  | cons o rest ih =>
    simp only [tryOptions, List.findSome?_cons, trySummary]
    cases h : env.summaryOf o 3 with
    | ok s => rfl
    | error e => exact ih

/-- The decoy list after the top-up step always has at least 3 entries. -/
theorem topped_wrong_answers_length (env : Env) (wa0 wa1 : List String)
    (h : topped_wrong_answers env wa0 = .ok wa1) : 3 ≤ wa1.length := by
  unfold topped_wrong_answers at h
  by_cases hlt : wa0.length < 3
  · rw [if_pos hlt] at h
    cases htu : env.randomTopup with
    | error e => simp only [htu] at h; cases h
    | ok pages =>
      simp only [htu] at h
      cases hps : pySample pages (3 - wa0.length) env.topupPicks with
      | error e => simp only [hps] at h; cases h
      | ok extra =>
        simp only [hps, Except.ok.injEq] at h
        have hlen := (pySample_ok_length _ _ _ _ hps).1
        rw [← h, List.length_append, hlen]
        omega
  · rw [if_neg hlt] at h
    cases h
    omega

/-- Structure of every successfully built question: the stored answer is the
fetched title, the prompt embeds the summary, there are exactly 4 options,
and the correct answer is among them. -/
theorem buildQuestion_ok (env : Env) (category correct summary : String)
    (q : Question) (h : buildQuestion env category correct summary = .ok q) :
    q.answer = correct ∧ q.question = questionText summary ∧
      q.options.length = 4 ∧ correct ∈ q.options := by
  unfold buildQuestion at h
  cases hpool : wrong_answers_pool_of env category correct with
  | error e => simp only [hpool] at h; cases h
  | ok pool =>
    simp only [hpool] at h
    cases htop : topped_wrong_answers env (wrong_answers_of pool correct) with
    | error e => simp only [htop] at h; cases h
    | ok wa1 =>
      simp only [htop] at h
      have h3 : 3 ≤ wa1.length := topped_wrong_answers_length env _ _ htop
      cases hps : pySample wa1 (min 3 wa1.length) env.samplePicks3 with
      | error e => rw [pySample_min_ok] at hps; cases hps
      | ok w =>
        simp only [hps, Except.ok.injEq] at h
        have hwlen := (pySample_ok_length _ _ _ _ hps).1
        have hperm := pyShuffle_perm (w ++ [correct]) env.shufflePicks
        refine ⟨by rw [← h], by rw [← h], ?_, ?_⟩
        · rw [← h]
          show (pyShuffle (w ++ [correct]) env.shufflePicks).length = 4
          rw [hperm.length_eq, List.length_append, hwlen]
          simp [Nat.min_eq_left h3]
        · rw [← h]
          show correct ∈ pyShuffle (w ++ [correct]) env.shufflePicks
          exact hperm.mem_iff.mpr (by simp)

/-- The loop's outcome depends only on the environments of the attempts it
may make (`attempts`, ..., `attempts + fuel - 1`). -/
theorem questionLoop_congr (category : String) (asked : List Question) :
    ∀ (fuel attempts : Nat) (envs envs2 : Nat → Env),
      (∀ i, attempts ≤ i → i < attempts + fuel → envs i = envs2 i) →
      questionLoop category asked envs attempts fuel =
        questionLoop category asked envs2 attempts fuel := by
  intro fuel
  induction fuel with
  | zero => intro attempts envs envs2 _; rfl
  | succ fuel ih =>
    intro attempts envs envs2 hagree
    have h0 : envs attempts = envs2 attempts :=
      hagree attempts (Nat.le_refl _) (by omega)
    have hrec := ih (attempts + 1) envs envs2
      (fun i h1 h2 => hagree i (by omega) (by omega))
    simp only [questionLoop, h0]
    cases generate_mcq (envs2 attempts) category with
    | error e => rfl
    | ok o =>
      cases o with
      | none => exact hrec
      | some q =>
        dsimp only
        by_cases hmem : q.answer ∈ asked.map Question.answer
        · rw [if_pos hmem, if_pos hmem]; exact hrec
        · rw [if_neg hmem, if_neg hmem]

/-- An accepted question never repeats an already-asked answer. -/
theorem questionLoop_accepted (category : String) (asked : List Question) :
    ∀ (fuel attempts : Nat) (envs : Nat → Env) (q : Question),
      questionLoop category asked envs attempts fuel =
        RoundOutcome.accepted q →
      q.answer ∉ asked.map Question.answer := by
  intro fuel
  induction fuel with
  | zero => intro attempts envs q h; cases h
  | succ fuel ih =>
    intro attempts envs q h
    simp only [questionLoop] at h
    cases hg : generate_mcq (envs attempts) category with
    | error e => rw [hg] at h; cases h
    | ok o =>
      rw [hg] at h
      cases o with
      | none => exact ih _ _ _ h
      | some q2 =>
        dsimp only at h
        by_cases hmem : q2.answer ∈ asked.map Question.answer
        · rw [if_pos hmem] at h; exact ih _ _ _ h
        · rw [if_neg hmem] at h
          cases h
          exact hmem

/-- If every attempt the loop can make is rejected, it runs out of fuel and
reports the round as un-fillable. -/
theorem questionLoop_unfillable (category : String) (asked : List Question) :
    ∀ (fuel attempts : Nat) (envs : Nat → Env),
      (∀ i, attempts ≤ i → i < attempts + fuel →
        attemptRejected category asked (envs i)) →
      questionLoop category asked envs attempts fuel =
        RoundOutcome.unfillable := by
  intro fuel
  induction fuel with
  | zero => intro attempts envs _; rfl
  | succ fuel ih =>
    intro attempts envs hrej
    have hrec := ih (attempts + 1) envs
      (fun i h1 h2 => hrej i (by omega) (by omega))
    rcases hrej attempts (Nat.le_refl _) (by omega) with hnone | ⟨q, hq, hmem⟩
    · simp only [questionLoop, hnone]
      exact hrec
    · simp only [questionLoop, hq, if_pos hmem]
      exact hrec

/-- An environment whose search endpoint fails with a transport error. -/
def envHttpFail : Env :=
  { envBase with search := fun _ _ => .error PyExn.httpError }

/-- Claim C7: every retrieval error raised inside the Article Fetcher
(network failure, missing page, or any other exception besides the handled
disambiguation condition) is caught at the Fetcher boundary and converted
to the NotFound result; for every input the Fetcher never propagates an
exception to its caller. -/
theorem c7_fetcher_never_raises (env : Env) (category : String) :
    (∃ r : Option (String × String),
      get_random_wikipedia_summary env category = .ok r) ∧
    (∀ e : PyExn, fetchBody env category = .error e →
      (∀ opts, e ≠ PyExn.disambiguation opts) →
      get_random_wikipedia_summary env category = .ok none) := by
  constructor
  · unfold get_random_wikipedia_summary
    cases fetchBody env category with
    | ok r => exact ⟨r, rfl⟩
    | error e =>
      cases e with
      | disambiguation opts =>
        show ∃ r, recoverDisambiguation env opts = .ok r
        unfold recoverDisambiguation
        by_cases hopts : opts.isEmpty
        · rw [if_pos hopts]
          exact ⟨none, rfl⟩
        · rw [if_neg hopts]
          unfold pySample
          rw [if_neg (Nat.not_lt.mpr (Nat.min_le_left _ _))]
          exact ⟨_, rfl⟩
      | pageError => exact ⟨none, rfl⟩
      | httpError => exact ⟨none, rfl⟩
      | valueError => exact ⟨none, rfl⟩
      | otherError => exact ⟨none, rfl⟩
  · intro e hf hnd
    unfold get_random_wikipedia_summary
    rw [hf]
    cases e with
    | disambiguation opts => exact absurd rfl (hnd opts)
    | pageError => rfl
    | httpError => rfl
    | valueError => rfl
    | otherError => rfl

/-- Witness for C7 at a concrete input: a failing search call (a transport
error, not a disambiguation condition) is converted to NotFound. -/
theorem c7_fetcher_never_raises_witness :
    get_random_wikipedia_summary envHttpFail "Science" = Except.ok none :=
  (c7_fetcher_never_raises envHttpFail "Science").2 PyExn.httpError
    (by rfl) (by intro opts h; cases h)

/-- Claim C8: if the Article Fetcher returns NotFound, the Question Builder
returns NotFound as well, producing no partial Question. -/
theorem c8_notfound_propagates (env : Env) (category : String)
    (h : get_random_wikipedia_summary env category = .ok none) :
    generate_mcq env category = .ok none := by
  unfold generate_mcq
  rw [h]

/-- Witness for C8 at a concrete input: an empty search result makes the
fetcher, and hence the builder, return NotFound. -/
theorem c8_notfound_propagates_witness :
    generate_mcq envNotFound "History" = Except.ok none :=
  c8_notfound_propagates envNotFound "History" (by rfl)

/-- Claim C10: a fetched pair with an empty summary makes the builder
return NotFound even though the title is present: the test at line 65 reads
only the summary. -/
theorem c10_empty_summary_notfound (env : Env) (category title : String)
    (h : get_random_wikipedia_summary env category = .ok (some (title, ""))) :
    generate_mcq env category = .ok none := by
  unfold generate_mcq
  rw [h]
  rfl

/-- Witness for C10 at a concrete input: the summary endpoint returns an
empty string alongside the non-empty title "Abcdefg". -/
theorem c10_empty_summary_notfound_witness :
    generate_mcq envEmptySummary "Art" = Except.ok none :=
  c10_empty_summary_notfound envEmptySummary "Art" "Abcdefg" (by rfl)

/-- Counterexample to claim C2 as stated: "Hello" has length exactly 5 and
no disambiguation marker, yet the candidate filter discards it (the code
keeps only titles of length strictly greater than 5). -/
theorem c2_length_five_discarded :
    hasMarker "Hello" = false ∧ "Hello".length = 5 ∧
      valid_titles ["Hello"] = [] :=
  ⟨rfl, rfl, rfl⟩

/-- Claim C2, amended: the candidate filter keeps exactly the search
results without the disambiguation marker whose length is strictly greater
than 5 (equivalently, it discards marker-bearing titles and titles of
length at most 5, including length exactly 5). -/
theorem c2_filter_exact (page_titles : List String) (t : String) :
    t ∈ valid_titles page_titles ↔
      t ∈ page_titles ∧ hasMarker t = false ∧ 5 < t.length := by
  simp [valid_titles, List.mem_filter, Bool.and_eq_true, Bool.not_eq_true',
    decide_eq_true_eq, and_assoc]

/-- Claim C9: the question-generation algorithm does not depend on the
difficulty setting: two configurations differing only in
`difficulty_level` give identical fetcher, builder and round-controller
results for the same topic, random source and network responses. -/
theorem c9_difficulty_irrelevant (c : String) (d1 d2 n : Nat) (env : Env)
    (asked : List Question) (envs : Nat → Env) :
    quizFetch ⟨c, d1, n⟩ env = quizFetch ⟨c, d2, n⟩ env ∧
    quizGenerate ⟨c, d1, n⟩ env = quizGenerate ⟨c, d2, n⟩ env ∧
    quizRound ⟨c, d1, n⟩ asked envs = quizRound ⟨c, d2, n⟩ asked envs :=
  ⟨rfl, rfl, rfl⟩

/-- Claim C6: when the summary lookup for the chosen title reports a
disambiguation condition, the Article Fetcher samples up to 5 of the
reported alternative titles, attempts a summary fetch for each in turn, and
returns the first (title, summary) pair that succeeds; if every sampled
alternative fails it returns NotFound. -/
theorem c6_disambiguation_recovery (env : Env) (category : String)
    (opts : List String)
    (h : fetchBody env category = .error (PyExn.disambiguation opts)) :
    get_random_wikipedia_summary env category =
        recoverDisambiguation env opts ∧
    (opts = [] → recoverDisambiguation env opts = .ok none) ∧
    (opts ≠ [] → ∃ sampled : List String,
      pySample opts (min opts.length 5) env.disambPicks = .ok sampled ∧
      sampled.length = min opts.length 5 ∧ sampled.length ≤ 5 ∧
      (∀ o ∈ sampled, o ∈ opts) ∧
      recoverDisambiguation env opts =
        .ok (sampled.findSome? (trySummary env)) ∧
      ((∀ o ∈ sampled, trySummary env o = none) →
        recoverDisambiguation env opts = .ok none)) := by
  refine ⟨?_, ?_, ?_⟩
  · unfold get_random_wikipedia_summary
    rw [h]
  · intro he
    subst he
    rfl
  · intro hne
    have hps : pySample opts (min opts.length 5) env.disambPicks =
        .ok (sampleAux (min opts.length 5) opts env.disambPicks) := by
      unfold pySample
      rw [if_neg (Nat.not_lt.mpr (Nat.min_le_left _ _))]
    have hrec : recoverDisambiguation env opts =
        .ok ((sampleAux (min opts.length 5) opts env.disambPicks).findSome?
          (trySummary env)) := by
      unfold recoverDisambiguation
      rw [if_neg (by simpa [List.isEmpty_iff] using hne)]
      simp only [hps]
      rw [tryOptions_eq_findSome]
    refine ⟨sampleAux (min opts.length 5) opts env.disambPicks, hps,
      sampleAux_length _ _ _ (Nat.min_le_left _ _), ?_, ?_, hrec, ?_⟩
    · rw [sampleAux_length _ _ _ (Nat.min_le_left _ _)]
      exact Nat.min_le_right _ _
    · exact fun o ho => sampleAux_mem _ _ _ _ ho
    · intro hall
      rw [hrec, List.findSome?_eq_none_iff.mpr hall]

/-- Witness for C6 at a concrete input: the chosen title reports six
alternatives; the sampled five are tried in turn. -/
theorem c6_disambiguation_recovery_witness :
    get_random_wikipedia_summary envDisamb "Science" =
      recoverDisambiguation envDisamb ["O1", "O2", "O3", "O4", "O5", "O6"] :=
  (c6_disambiguation_recovery envDisamb "Science"
    ["O1", "O2", "O3", "O4", "O5", "O6"] (by rfl)).1

/-- A title returned by the `try` body of the fetcher passed the candidate
filter, so it carries no disambiguation marker. -/
theorem fetchBody_ok_no_marker (env : Env) (category title summary : String)
    (h : fetchBody env category = .ok (some (title, summary))) :
    hasMarker title = false := by
  unfold fetchBody at h
  cases hs : env.search category 50 with
  | error e => simp only [hs] at h; cases h
  | ok page_titles =>
    simp only [hs] at h
    by_cases h1 : page_titles.isEmpty
    · rw [if_pos h1] at h
      simp at h
    · rw [if_neg h1] at h
      by_cases h2 : (valid_titles page_titles).isEmpty
      · rw [if_pos h2] at h
        simp at h
      · rw [if_neg h2] at h
        cases hsum : env.summaryOf (chosen_title env page_titles) 3 with
        | error e => simp only [hsum] at h; cases h
        | ok s =>
          simp only [hsum, Except.ok.injEq, Option.some.injEq,
            Prod.mk.injEq] at h
          have hpos : 0 < (valid_titles page_titles).length := by
            rcases (valid_titles page_titles).eq_nil_or_concat with hnil | _
            · rw [hnil] at h2
              exact absurd rfl h2
            · cases hl : valid_titles page_titles with
              | nil => rw [hl] at h2; exact absurd rfl h2
              | cons a t => simp [hl]
          have hmem : chosen_title env page_titles ∈ valid_titles page_titles :=
            getD_mem _ _ _ (Nat.mod_lt _ hpos)
          have hfilt := (List.mem_filter.mp hmem).2
          rw [Bool.and_eq_true] at hfilt
          have hmk : hasMarker (chosen_title env page_titles) = false := by
            simpa using hfilt.1
          rw [← h.1]
          exact hmk

/-- The question produced by a successful build of envOk: the three search
decoys followed by the correct answer. -/
def qOk : Question :=
  { question := questionText "S1."
    options := ["B1", "B2", "B3", "Abcdefg"]
    answer := "Abcdefg" }

/-- Counterexample to claim C4 as stated: on the disambiguation-recovery
path the alternative titles are not filtered, so a produced Question can
carry a correct answer that contains the disambiguation marker. -/
theorem c4_recovery_marker_cex :
    generate_mcq envC4 "Science" =
      .ok (some { question := questionText "S2."
                  options := ["B1", "B2", "B3", "Foo (disambiguation)"]
                  answer := "Foo (disambiguation)" }) ∧
    hasMarker "Foo (disambiguation)" = true := by
  exact ⟨by rfl, by rfl⟩

/-- Claim C4, amended: on the normal fetch path (the summary lookup of the
chosen candidate succeeds, with no disambiguation recovery) the correct
answer of every produced Question is the chosen candidate, which passed the
filter and therefore never contains the disambiguation marker.  (The
recovery path does not re-filter the alternative titles, see the
counterexample.) -/
theorem c4_normal_path_no_marker (env : Env)
    (category title summary : String) (q : Question)
    (hf : fetchBody env category = .ok (some (title, summary)))
    (hq : generate_mcq env category = .ok (some q)) :
    q.answer = title ∧ hasMarker q.answer = false := by
  have hfetch : get_random_wikipedia_summary env category =
      .ok (some (title, summary)) := by
    unfold get_random_wikipedia_summary
    rw [hf]
  unfold generate_mcq at hq
  rw [hfetch] at hq
  dsimp only at hq
  by_cases hsum : summary = ""
  · rw [if_pos hsum] at hq
    simp at hq
  · rw [if_neg hsum] at hq
    cases hb : buildQuestion env category title summary with
    | error e => simp only [hb] at hq; cases hq
    | ok q2 =>
      simp only [hb, Except.ok.injEq, Option.some.injEq] at hq
      subst hq
      have hprops := buildQuestion_ok env category title summary q2 hb
      refine ⟨hprops.1, ?_⟩
      rw [hprops.1]
      exact fetchBody_ok_no_marker env category title summary hf

/-- Witness for the amended C4 at a concrete input: a normal-path run whose
answer is the marker-free chosen candidate. -/
theorem c4_normal_path_no_marker_witness :
    qOk.answer = "Abcdefg" ∧ hasMarker qOk.answer = false :=
  c4_normal_path_no_marker envOk "Science" "Abcdefg" "S1." qOk
    (by rfl) (by rfl)

/-- The question produced by envC3: the top-up draw returned "B1", already
present among the deduplicated decoys, and it was appended unfiltered. -/
def qC3 : Question :=
  { question := questionText "S1."
    options := ["B2", "B1", "B1", "Abcdefg"]
    answer := "Abcdefg" }

/-- Counterexample to claim C3 as stated: with only 2 decoys left after
deduplication, the top-up draw returns a title already in the pool and the
builder appends it without re-deduplicating, so the final options contain
the decoy "B1" twice. -/
theorem c3_no_rededup_cex :
    (wrong_answers_of ["B1", "B2", "B1", "B2", "B1", "B2", "B1"]
      "Abcdefg").length = 2 ∧
    generate_mcq envC3 "Science" = .ok (some qC3) ∧
    qC3.options.count "B1" = 2 ∧ qC3.answer = "Abcdefg" := by
  exact ⟨by rfl, by rfl, by rfl, rfl⟩

/-- Claim C3, amended: when fewer than 3 decoys remain after
deduplication, the builder makes a single top-up draw of 5 random titles
and appends a sample of exactly 3 - k of them, without re-deduplicating
against the pool or the correct answer; provided the random endpoint
returns enough titles, the build succeeds and still returns exactly 3
decoys (4 options including the correct answer, though possibly with
repeats). -/
theorem c3_single_topup (env : Env) (category correct summary : String)
    (pool pages : List String)
    (hpool : wrong_answers_pool_of env category correct = .ok pool)
    (hlt : (wrong_answers_of pool correct).length < 3)
    (htu : env.randomTopup = .ok pages)
    (hpk : 3 - (wrong_answers_of pool correct).length ≤ pages.length) :
    ∃ q, buildQuestion env category correct summary = .ok q ∧
      q.options.length = 4 ∧ q.answer = correct ∧ correct ∈ q.options := by
  have hps : pySample pages (3 - (wrong_answers_of pool correct).length)
      env.topupPicks =
      .ok (sampleAux (3 - (wrong_answers_of pool correct).length) pages
        env.topupPicks) := by
    unfold pySample
    rw [if_neg (Nat.not_lt.mpr hpk)]
  have htop : topped_wrong_answers env (wrong_answers_of pool correct) =
      .ok (wrong_answers_of pool correct ++
        sampleAux (3 - (wrong_answers_of pool correct).length) pages
          env.topupPicks) := by
    unfold topped_wrong_answers
    rw [if_pos hlt]
    simp only [htu, hps]
  have hbq : ∃ q, buildQuestion env category correct summary = .ok q := by
    unfold buildQuestion
    simp only [hpool, htop]
    rw [pySample_min_ok]
    exact ⟨_, rfl⟩
  obtain ⟨q, hq⟩ := hbq
  have hprops := buildQuestion_ok env category correct summary q hq
  exact ⟨q, hq, hprops.2.2.1, hprops.1, hprops.2.2.2⟩

/-- Witness for the amended C3 at a concrete input: a pool that collapses
to one decoy forces the top-up draw, and the build still returns 4
options. -/
theorem c3_single_topup_witness :
    ∃ q, buildQuestion envTopup "Science" "Abcdefg" "S1." = .ok q ∧
      q.options.length = 4 ∧ q.answer = "Abcdefg" ∧ "Abcdefg" ∈ q.options :=
  c3_single_topup envTopup "Science" "Abcdefg" "S1."
    ["B1", "B1", "B1", "B1", "B1"] ["T1", "T2", "T3", "T4", "T5"]
    (by rfl) (by decide) (by rfl) (by decide)

/-- The question produced by envC1: the top-up draw returned the correct
answer itself, which was appended to the decoys unfiltered. -/
def qC1 : Question :=
  { question := questionText "S1."
    options := ["B2", "B1", "Abcdefg", "Abcdefg"]
    answer := "Abcdefg" }

/-- Claim C1 fails on the code (contradicting the comment "Ensure unique
and sufficient wrong answers" at line 87): when the top-up draw of line 92
happens to return the correct answer, the produced Question has 4 options
but the correct answer appears twice among them, so the options are not
pairwise distinct. -/
theorem c1_duplicate_options :
    generate_mcq envC1 "Science" = .ok (some qC1) ∧
    qC1.options.length = 4 ∧ qC1.answer ∈ qC1.options ∧
    qC1.options.count qC1.answer = 2 ∧ ¬ qC1.options.Nodup := by
  refine ⟨by rfl, by rfl, by decide, by rfl, by decide⟩

/-- Claim C5: the round controller's question-acceptance loop makes at most
5 build attempts per round (its outcome depends only on the first 5 attempt
environments); it never accepts a Question whose correct answer equals the
correct answer of a previously asked question; and when all 5 attempts fail
or yield a duplicate it reports the round as un-fillable. -/
theorem c5_round_controller (category : String) (asked : List Question)
    (envs : Nat → Env) :
    (∀ envs2 : Nat → Env, (∀ i, i < 5 → envs i = envs2 i) →
      runQuestionLoop category asked envs =
        runQuestionLoop category asked envs2) ∧
    (∀ q, runQuestionLoop category asked envs = RoundOutcome.accepted q →
      q.answer ∉ asked.map Question.answer) ∧
    ((∀ i, i < 5 → attemptRejected category asked (envs i)) →
      runQuestionLoop category asked envs = RoundOutcome.unfillable) := by
  refine ⟨?_, ?_, ?_⟩
  · intro envs2 hagree
    exact questionLoop_congr category asked 5 0 envs envs2
      (fun i h1 h2 => hagree i (by omega))
  · intro q hq
    exact questionLoop_accepted category asked 5 0 envs q hq
  · intro hrej
    exact questionLoop_unfillable category asked 5 0 envs
      (fun i h1 h2 => hrej i (by omega))

/-- Witness for C5 at concrete inputs: five rejected attempts make the
round un-fillable; an accepted question has a fresh answer; and the
outcome is stable under agreeing environments. -/
theorem c5_round_controller_witness :
    runQuestionLoop "History" [] (fun _ => envNotFound) =
      RoundOutcome.unfillable ∧
    qOk.answer ∉ ([] : List Question).map Question.answer ∧
    runQuestionLoop "Science" [] (fun _ => envOk) =
      RoundOutcome.accepted qOk ∧
    runQuestionLoop "Science" [qOk] (fun _ => envOk) =
      runQuestionLoop "Science" [qOk] (fun _ => envOk) := by
  refine ⟨?_, ?_, ?_, ?_⟩
  · exact (c5_round_controller "History" [] (fun _ => envNotFound)).2.2
      (fun i _ => Or.inl (by rfl))
  · exact (c5_round_controller "Science" [] (fun _ => envOk)).2.1 qOk (by rfl)
  · rfl
  · exact (c5_round_controller "Science" [qOk] (fun _ => envOk)).1
      (fun _ => envOk) (fun i _ => rfl)
